import Mathlib

/-!
Verification of the page-state orchestration and merge pipeline of the
document digitization system (y2d2-oce-base).

Each definition is a shallow embedding of one Python function of the
repository; the source file and line range are recorded in its doc comment.
Machine/float arithmetic of the source is modelled over `ℤ`/`ℚ`:
Python `int(x)` is truncation toward zero (`pyInt`), Python `//` on
non-negative operands coincides with Lean's integer division, and the
numeric configuration ratios are taken as exact rationals.
Definitions named `spec...` are *not* taken from the source: they transcribe
sentences of the specification document and are compared against the
source-derived definitions in the theorems.
-/

/-- Python `int(x)` applied to a numeric value: truncation toward zero. -/
def pyInt (x : ℚ) : ℤ := if 0 ≤ x then ⌊x⌋ else ⌈x⌉

/-- Python `str.lower()` restricted to the character-wise case mapping. -/
def pyLower (s : String) : String := String.mk (s.data.map Char.toLower)

/-- Python `str.strip()`: remove leading and trailing whitespace. -/
def pyStrip (s : String) : String :=
  String.mk (((s.data.dropWhile Char.isWhitespace).reverse.dropWhile Char.isWhitespace).reverse)

/-! ## Step4 merge of per-image page-count judgments

Source: `src/src/modules/step4/03_step4_processor.py`,
`Step4Processor._merge_individual_results` (lines 144-251).
The dynamic judgment dicts are modelled as records of optional fields,
holding the values after the `_to_int` / `_to_float` / `_to_bool`
coercions (a non-coercible or missing entry is `none`). -/

/-- One per-image judgment payload (`judgment` dict of an individual result). -/
structure PageCountJudgment where
  page_count : Option ℤ
  has_table_elements : Option Bool
  has_handwritten_notes_or_marks : Option Bool
  page_count_confidence : Option ℚ
  confidence_score : Option ℚ
  readability_issues : Option String
  readability_comment : Option String
  overall_comment : Option String
deriving Repr, DecidableEq

/-- The empty judgment dict `{}` (every key absent). -/
def PageCountJudgment.empty : PageCountJudgment :=
  ⟨none, none, none, none, none, none, none, none⟩

/-- One element of `individual_results`: the evaluator's result wrapper. -/
structure IndividualResult where
  success : Bool
  judgment : PageCountJudgment
deriving Repr, DecidableEq

/-- The `merged_judgment` dict produced by `_merge_individual_results`.
The two boolean fields are stored as the strings `"True"` / `"False"`,
exactly as the source does (line 169). -/
structure MergedJudgment where
  has_table_elements : String
  has_handwritten_notes_or_marks : String
  page_count : ℤ
  page_count_confidence : Option ℚ
  confidence_score : Option ℚ
  readability_issues : String
  readability_comment : Option String
  overall_comment : Option String
deriving Repr, DecidableEq

/-- Lines 163-169: boolean OR across all images of one optional field;
a failed result contributes the empty judgment dict (line 166). -/
def mergeBoolField (get : PageCountJudgment → Option Bool)
    (individual_results : List IndividualResult) : String :=
  let acc := individual_results.foldl (fun acc res =>
    let judgment := if res.success then res.judgment else PageCountJudgment.empty
    match get judgment with
    | some b => acc || b
    | none => acc) false
  if acc then "True" else "False"

/-- Lines 183-192: running sum of the non-null integer `page_count` values of
the successful results. -/
def mergedPageCountRaw (individual_results : List IndividualResult) : ℤ :=
  individual_results.foldl (fun s res =>
    if res.success then
      match res.judgment.page_count with
      | some pc => s + pc
      | none => s
    else s) 0

/-- Lines 217-221: clamp of the summed page count (two sequential `if`s). -/
def clampMergedPageCount (s : ℤ) : ℤ :=
  let s := if s ≤ 0 then 1 else s
  if s > 3 then 3 else s

/-- Line 179: the `order` dict `none:0, minor:1, major:2`. -/
def levelOrder (s : String) : Option ℤ :=
  if s = "none" then some 0
  else if s = "minor" then some 1
  else if s = "major" then some 2
  else none

/-- Line 180: the reversed `rev_order` dict. -/
def levelName (v : ℤ) : Option String :=
  if v = 0 then some "none"
  else if v = 1 then some "minor"
  else if v = 2 then some "major"
  else none

/-- Lines 181-215: worst readability value, starting from `-1`; only the
successful results whose (lowercased) `readability_issues` string is a key
of `order` participate. -/
def worstReadabilityVal (individual_results : List IndividualResult) : ℤ :=
  individual_results.foldl (fun w res =>
    if res.success then
      match levelOrder (pyLower ((res.judgment.readability_issues).getD "")) with
      | some v => max w v
      | none => w
    else w) (-1)

/-- Line 233: merged readability string from the worst value. -/
def mergedReadability (individual_results : List IndividualResult) : String :=
  let w := worstReadabilityVal individual_results
  if w ≥ 0 then (levelName w).getD "none" else "none"

/-- Lines 195-201: the list of non-null confidences of successful results,
extracted by one of the two `_to_float` projections. -/
def confidenceList (get : PageCountJudgment → Option ℚ)
    (individual_results : List IndividualResult) : List ℚ :=
  individual_results.foldl (fun acc res =>
    if res.success then
      match get res.judgment with
      | some c => acc ++ [c]
      | none => acc
    else acc) []

/-- Python `round(x, 3)` modelled as round-half-up on `ℚ`; no claim depends
on the tie-breaking rule of the float rounding of the source. -/
def roundTo3 (x : ℚ) : ℚ := ((x * 1000).floor + (if (x * 1000) - (x * 1000).floor ≥ 1/2 then 1 else 0) : ℤ) / 1000

/-- Lines 224-225 and 231-232: arithmetic mean of the collected confidences,
`none` when no image supplied a value, rounded to 3 decimals. -/
def averagedConfidence (l : List ℚ) : Option ℚ :=
  if l = [] then none else some (roundTo3 (l.sum / l.length))

/-- Lines 203-210: comment lines prefixed with their 1-based source image
index; a failed result and an absent or empty comment contribute nothing
(Python truthiness of the string). -/
def commentLines (get : PageCountJudgment → Option String)
    (individual_results : List IndividualResult) : List String :=
  individual_results.enum.foldl (fun acc (p : ℕ × IndividualResult) =>
    if p.2.success then
      match get p.2.judgment with
      | some c => if c ≠ "" then acc ++ ["img" ++ toString (p.1 + 1) ++ ": " ++ c] else acc
      | none => acc
    else acc) []

/-- Lines 234-235: newline-joined comments, `None` when no line collected. -/
def joinedComments (l : List String) : Option String :=
  if l = [] then none else some (String.intercalate "\n" l)

/-- `Step4Processor._merge_individual_results` (lines 144-251): merge the
per-image judgment results of one page.  `none` models the
`success: False` dict returned for the empty input list (lines 156-157);
`some m` models the `success: True` result carrying `merged_judgment = m`
(lines 228-243).  The `page_number` passthrough and the echoed
`individual_results` field of the wrapper are omitted. -/
def mergeIndividualResults (individual_results : List IndividualResult) :
    Option MergedJudgment :=
  if individual_results = [] then none
  else some
    { has_table_elements := mergeBoolField (·.has_table_elements) individual_results
      has_handwritten_notes_or_marks :=
        mergeBoolField (·.has_handwritten_notes_or_marks) individual_results
      page_count := clampMergedPageCount (mergedPageCountRaw individual_results)
      page_count_confidence :=
        averagedConfidence (confidenceList (·.page_count_confidence) individual_results)
      confidence_score :=
        averagedConfidence (confidenceList (·.confidence_score) individual_results)
      readability_issues := mergedReadability individual_results
      readability_comment := joinedComments (commentLines (·.readability_comment) individual_results)
      overall_comment := joinedComments (commentLines (·.overall_comment) individual_results) }

/-- Transcribed from the spec: "`page_count`: sum of individual non-null
integer values, then clamp to `[1,3]` (sum ≤ 0 → 1; sum > 3 → 3)."
Failed individual results supply no values (their judgment dict is empty). -/
def specPageCountSum (individual_results : List IndividualResult) : ℤ :=
  ((individual_results.filter (·.success)).filterMap (·.judgment.page_count)).sum

/-- Transcribed from the spec: the clamp `sum ≤ 0 → 1; sum > 3 → 3`. -/
def specClamp13 (s : ℤ) : ℤ := if s ≤ 0 then 1 else if s > 3 then 3 else s

/-- Transcribed from the spec: "`readability_issues`: take the maximum
severity using total order `none(0) < minor(1) < major(2)`; absent from
all ⇒ `none`." -/
def specWorstReadability (individual_results : List IndividualResult) : String :=
  let vals := (individual_results.filter (·.success)).filterMap
    (fun res => levelOrder (pyLower ((res.judgment.readability_issues).getD "")))
  match vals.maximum with
  | some v => (levelName v).getD "none"
  | none => "none"

/-- Helper: a successful individual result whose judgment carries only an
integer `page_count` (used to realize concrete merge inputs). -/
def mkPageCountResult (pc : ℤ) : IndividualResult :=
  { success := true, judgment := { PageCountJudgment.empty with page_count := some pc } }

/-- Helper: a successful individual result whose judgment carries only a
`readability_issues` string. -/
def mkReadabilityResult (s : String) : IndividualResult :=
  { success := true, judgment := { PageCountJudgment.empty with readability_issues := some s } }

/-- Helper: a failed individual result (empty judgment dict). -/
def mkFailedResult : IndividualResult :=
  { success := false, judgment := PageCountJudgment.empty }

/-! ## Step4 forced left-right split

Source: `src/src/modules/step4/02_page_splitter.py`,
`PageSplitter.split_image_left_right_with_overlap` (lines 30-75),
`PageSplitter.should_split_page` (lines 77-92) and
`PageSplitter.split_page` (lines 94-161).
An image is modelled by the half-open span of source columns it covers;
a freshly rendered page image of width `W` is the span `[0, W)`. -/

/-- A half-open span `[lo, hi)` of columns of the original page image. -/
structure ColumnSpan where
  lo : ℤ
  hi : ℤ
deriving Repr, DecidableEq

/-- Width (number of columns) of a span, as read off `image.shape` (line 45). -/
def ColumnSpan.width (s : ColumnSpan) : ℤ := s.hi - s.lo

/-- Line 48: `overlap_width = int(width * overlap_ratio)`. -/
def overlapWidth (width : ℤ) (overlap_ratio : ℚ) : ℤ :=
  pyInt ((width : ℚ) * overlap_ratio)

/-- Lines 44-59 of `split_image_left_right_with_overlap`: the two output
slices `image[:, :left_end]` and `image[:, right_start:]` of a width-`w`
image, with `center_x = width // 2`, `left_end = center_x + overlap_width // 2`,
`right_start = center_x - overlap_width // 2` (Python `//` on the
non-negative operands coincides with Lean integer division). -/
def splitLeftRightSpans (width : ℤ) (overlap_ratio : ℚ) : ColumnSpan × ColumnSpan :=
  let overlap_width := overlapWidth width overlap_ratio
  let center_x := width / 2
  let left_end := center_x + overlap_width / 2
  let right_start := center_x - overlap_width / 2
  (⟨0, left_end⟩, ⟨right_start, width⟩)

/-- The page record fields `split_page` consults and mutates. -/
structure SplitPage where
  page_number : ℕ
  page_count : Option ℤ
  skip_processing : Bool
  processed_images : List ColumnSpan
deriving Repr, DecidableEq

/-- `PageSplitter.should_split_page` (lines 77-92): `page_count == 2`, not
skipped, and exactly one processed image. -/
def shouldSplitPage (p : SplitPage) : Bool :=
  p.page_count == some 2 && !p.skip_processing && p.processed_images.length == 1

/-- `PageSplitter.split_page` (lines 94-161), restricted to the page-record
transformation: a non-qualifying page is returned unchanged (lines 108-114);
a qualifying page has its single image replaced by the two output slices of
`split_image_left_right_with_overlap` (lines 117-141).  File I/O (reading
and writing the JPEG files) is outside the embedding. -/
def splitPage (overlap_ratio : ℚ) (p : SplitPage) : SplitPage :=
  if shouldSplitPage p then
    match p.processed_images with
    | [img] =>
      let lr := splitLeftRightSpans img.width overlap_ratio
      { p with processed_images := [⟨img.lo + lr.1.lo, img.lo + lr.1.hi⟩,
                                    ⟨img.lo + lr.2.lo, img.lo + lr.2.hi⟩] }
    | _ => p
  else p

/-! ## Step5 tiling band computation

Source: `src/src/modules/step5/01_image_splitter.py`,
`ImageSplitter.calculate_split_regions` (lines 31-69). -/

/-- Lines 42-53: the effective number of bands, after the minimum-height
adjustment (`max(1, image_height // min_height_per_split)`). -/
def actualSplits (num_splits min_height_per_split image_height : ℕ) : ℕ :=
  if image_height / num_splits < min_height_per_split then
    max 1 (image_height / min_height_per_split)
  else num_splits

/-- Lines 42-49: the recomputed base band height. -/
def baseSplitHeight (num_splits min_height_per_split image_height : ℕ) : ℕ :=
  image_height / actualSplits num_splits min_height_per_split image_height

/-- Line 56: `overlap_pixels = int(base_height * overlap_ratio)`. -/
def overlapPixels (num_splits min_height_per_split : ℕ) (overlap_ratio : ℚ)
    (image_height : ℕ) : ℤ :=
  pyInt ((baseSplitHeight num_splits min_height_per_split image_height : ℚ) * overlap_ratio)

/-- Lines 59-67: the band with index `i` (arguments `base_height`,
`overlap_pixels`, `actual_splits`, `image_height` as computed above):
`start_y = max(0, i*base_height - overlap_pixels)`, `end_y = image_height`
for the last band and `min(image_height, (i+1)*base_height + overlap_pixels)`
otherwise. -/
def splitRegion (base_height : ℕ) (overlap_pixels : ℤ) (actual_splits image_height : ℕ)
    (i : ℕ) : ℤ × ℤ :=
  let start_y := max 0 ((i : ℤ) * base_height - overlap_pixels)
  let end_y := if i = actual_splits - 1 then (image_height : ℤ)
    else min (image_height : ℤ) (((i : ℤ) + 1) * base_height + overlap_pixels)
  (start_y, end_y)

/-- `ImageSplitter.calculate_split_regions` (lines 31-69): the list of
`(start_y, end_y)` band boundaries for an image of the given height. -/
def calculateSplitRegions (num_splits min_height_per_split : ℕ) (overlap_ratio : ℚ)
    (image_height : ℕ) : List (ℤ × ℤ) :=
  let actual := actualSplits num_splits min_height_per_split image_height
  let base := baseSplitHeight num_splits min_height_per_split image_height
  let overlap := overlapPixels num_splits min_height_per_split overlap_ratio image_height
  (List.range actual).map (splitRegion base overlap actual image_height)

/-! ## Step3 orientation angle normalization

Source: `src/src/modules/step3/01_orientation_detector.py`,
`OrientationDetector._extract_rotation_angle` (lines 221-275); the numeric
branch (lines 263-273), which is also the fallback applied to a number
extracted from an unrecognized string response (lines 250-259). -/

/-- Lines 263-273: normalization of an integer raw angle into one of the
four canonical rotations.  The branches are tested in source order:
`-45 <= angle <= 45 → 0`, `45 < angle <= 135 → 90`,
`-135 <= angle < -45 → -90`, otherwise `180`. -/
def extractRotationAngleNum (angle : ℤ) : ℤ :=
  if -45 ≤ angle ∧ angle ≤ 45 then 0
  else if 45 < angle ∧ angle ≤ 135 then 90
  else if -135 ≤ angle ∧ angle < -45 then -90
  else 180

/-- Transcribed from the spec: bucketing "into the nearest canonical angle
using half-open intervals `(-45,45]→0, (45,135]→90, [-135,-45]→-90,
else→180`" (for comparison against the source-derived function). -/
def specBucketAngle (angle : ℤ) : ℤ :=
  if -45 < angle ∧ angle ≤ 45 then 0
  else if 45 < angle ∧ angle ≤ 135 then 90
  else if -135 ≤ angle ∧ angle ≤ -45 then -90
  else 180

/-- Amended bucketing: the closed interval `[-45,45]` maps to 0 (the first
branch of the source wins at `-45`), so the `-90` bucket is `[-135,-45)`. -/
def amendedBucketAngle (angle : ℤ) : ℤ :=
  if -45 ≤ angle ∧ angle ≤ 45 then 0
  else if 45 < angle ∧ angle ≤ 135 then 90
  else if -135 ≤ angle ∧ angle < -45 then -90
  else 180

/-! ## Step2 distortion judgment, re-scan and dewarp for one page

Source: `src/src/modules/step2/04_step2_processor.py`,
`Step2Processor._process_single_page` (lines 146-254) and
`Step2Processor.process_pages` (lines 46-144);
`src/src/modules/step2/02_image_reprocessor.py`,
`ImageReprocessor.should_reprocess` (lines 50-66).
The external judgment call, the re-render and the dewarping engine are
collaborators: their outcomes enter the embedding as arguments. -/

/-- The `judgment` dict of a Stage2 distortion judgment. -/
structure DistortionJudgment where
  needs_dewarping : Option Bool
  readability_issues : Option String
  has_something_out_of_document : Option Bool
deriving Repr, DecidableEq

/-- The empty distortion judgment dict. -/
def DistortionJudgment.empty : DistortionJudgment := ⟨none, none, none⟩

/-- Outcome of `llm_judgment.evaluate_dewarping_need`. -/
structure LLMJudgmentResult where
  success : Bool
  judgment : DistortionJudgment
  error : Option String
deriving Repr, DecidableEq

/-- Outcome of `image_reprocessor.reprocess_page`. -/
structure ReprocessOutcome where
  success : Bool
  reprocessed_image_path : String
deriving Repr, DecidableEq

/-- Outcome of `dewarping_engine.process_image`. -/
structure DewarpOutcome where
  success : Bool
  skipped : Bool
  output_paths : List String
  output_path : String
deriving Repr, DecidableEq

/-- The per-page result dict built by `_process_single_page`.  A key that the
source only conditionally assigns is modelled as an `Option` field, `none`
meaning the key is absent from the dict. -/
structure Step2PageResult where
  page_number : ℕ
  success : Bool
  error : Option String
  original_image : String
  processed_image : String
  processed_images : List String
  needs_dewarping : Option Bool
  readability_issues : Option String
  reprocessed_at_scale : Option Bool
  dewarping_applied : Option Bool
deriving Repr, DecidableEq

/-- `ImageReprocessor.should_reprocess` (lines 50-66): re-render only when
the judgment succeeded and its lowercased `readability_issues` is "major". -/
def shouldReprocess (llm_result : LLMJudgmentResult) : Bool :=
  if !llm_result.success then false
  else pyLower ((llm_result.judgment.readability_issues).getD "") == "major"

/-- `Step2Processor._process_single_page` (lines 146-254) for one page:
the initial result dict (lines 164-170), the early return on judgment
failure (lines 177-181), the defaulted judgment fields (lines 183-186),
the conditional re-render (lines 190-215) and the conditional dewarp
(lines 217-244).  The collaborator outcomes (`reprocess`, `dewarp`) are
passed in; file naming and I/O are outside the embedding. -/
def step2ProcessSinglePage (image_path : String) (page_number : ℕ)
    (llm_result : LLMJudgmentResult) (reprocess : ReprocessOutcome)
    (dewarp : DewarpOutcome) : Step2PageResult :=
  let result : Step2PageResult :=
    { page_number := page_number
      success := true
      error := none
      original_image := image_path
      processed_image := image_path
      processed_images := [image_path]
      needs_dewarping := none
      readability_issues := none
      reprocessed_at_scale := none
      dewarping_applied := none }
  if !llm_result.success then
    { result with
        success := false
        error := some ("LLM judgment failed: " ++ ((llm_result.error).getD "")) }
  else
    let result := { result with
      needs_dewarping := some ((llm_result.judgment.needs_dewarping).getD false)
      readability_issues := some ((llm_result.judgment.readability_issues).getD "none") }
    let result :=
      if shouldReprocess llm_result then
        if reprocess.success then
          { result with
              reprocessed_at_scale := some true
              processed_image := reprocess.reprocessed_image_path
              processed_images := [reprocess.reprocessed_image_path] }
        else { result with reprocessed_at_scale := some false }
      else { result with reprocessed_at_scale := some false }
    if result.needs_dewarping = some true then
      if dewarp.success then
        if !dewarp.skipped then
          { result with
              dewarping_applied := some true
              processed_image := dewarp.output_path
              processed_images := dewarp.output_paths }
        else { result with dewarping_applied := some true }
      else { result with dewarping_applied := some false }
    else { result with dewarping_applied := some false }

/-! ## Fan-out/fan-in result accumulation (Stage2 and Stage3 consumers)

`asyncio.gather` launches one task per entry of a task list and returns
their results *in launch order*, whatever order the tasks complete in.
The event loop is modelled by a completion log: a list of
`(task index, task result)` pairs that is some permutation of the
enumerated launch-order results.  `gatherResults` rebuilds the list
`asyncio.gather` returns from such a log. -/

/-- Result list of `asyncio.gather`, reconstructed from a completion log by
sorting on the launch index and dropping it. -/
def gatherResults {α : Type} (delivered : List (ℕ × α)) : List α :=
  (List.insertionSort (fun a b : ℕ × α => a.1 ≤ b.1) delivered).map Prod.snd

/-- `Step2Processor.process_pages` (lines 94-136): gather the per-page task
results, then sort them by `page_number` (line 118) before returning; the
stage result is `success: True` with the sorted `page_results`
(lines 129-136). -/
def step2ProcessPages (delivered : List (ℕ × Step2PageResult)) :
    Bool × List Step2PageResult :=
  let page_results := gatherResults delivered
  (true, List.insertionSort (fun a b => a.page_number ≤ b.page_number) page_results)

/-- The per-page result dict of `Step3Processor._process_single_page`
(fields relevant to result ordering). -/
structure Step3PageResult where
  page_number : ℕ
  success : Bool
  rotated_count : ℕ
deriving Repr, DecidableEq

/-- `Step3Processor.process_pages` (lines 72-135): gather the per-page task
results and accumulate them in gather order (lines 88-113); unlike Stage2,
no sort by `page_number` is applied before the stage returns
`success: True` with `page_results` (lines 120-127). -/
def step3ProcessPages (delivered : List (ℕ × Step3PageResult)) :
    Bool × List Step3PageResult :=
  (true, gatherResults delivered)

/-! ## Step7 text collection and merge decision

Source: `src/src/modules/step7/01_text_integration_engine.py`,
`TextIntegrationEngine.collect_gemini_texts` (lines 33-101) and
`collect_document_ai_texts` (lines 103-171) - the two are verbatim copies
up to the glob pattern, so one embedding serves both;
`src/src/modules/step7/03_step7_processor.py`,
`Step7Processor.process_step6_results` (lines 40-141), the collection
check of lines 84-93.  A directory listing is modelled as the list of
`(filename, file content)` pairs the glob matched; unreadable files and
missing directories are filesystem failures outside the embedding. -/

/-- One entry of `collected_texts` (lines 64-69). -/
structure CollectedText where
  filename : String
  content : String
deriving Repr, DecidableEq

/-- The collection result dict (lines 82-89). -/
structure CollectionResult where
  success : Bool
  collected_texts : List CollectedText
  successful_files : List String
  failed_files : List String
  total_files : ℕ
  total_characters : ℕ
deriving Repr, DecidableEq

/-- Lines 47-89 of `collect_gemini_texts` (and the copy in
`collect_document_ai_texts`): sort the matched files by name, read each one,
strip its content, and keep the non-empty ones; `success` is
`len(successful_files) > 0`. -/
def collectTexts (files : List (String × String)) : CollectionResult :=
  let txt_files := List.insertionSort (fun a b : String × String => a.1 ≤ b.1) files
  let step := fun (acc : List CollectedText × List String × List String)
      (f : String × String) =>
    let content := pyStrip f.2
    if content ≠ "" then
      (acc.1 ++ [⟨f.1, content⟩], acc.2.1 ++ [f.1], acc.2.2)
    else
      (acc.1, acc.2.1, acc.2.2 ++ [f.1])
  let acc := txt_files.foldl step ([], [], [])
  { success := acc.2.1.length > 0
    collected_texts := acc.1
    successful_files := acc.2.1
    failed_files := acc.2.2
    total_files := txt_files.length
    total_characters := (acc.1.map (fun t => t.content.length)).sum }

/-- Lines 84-93 of `Step7Processor.process_step6_results`: after both
collection passes, the stage returns the fatal error result exactly when
both collections failed; otherwise it proceeds to integration. -/
def step7CollectionFatal (gemini_files document_ai_files : List (String × String)) : Bool :=
  let gemini_collection := collectTexts gemini_files
  let document_ai_collection := collectTexts document_ai_files
  !gemini_collection.success && !document_ai_collection.success

/-! ## Step1 optimal DPI computation

Source: `src/src/modules/step1/02_dpi_calculator.py`,
`DPICalculator.calculate_optimal_dpi` (lines 27-59).  Page sizes (points)
and the configured bounds are modelled as exact rationals; the final
`int(...)` is `pyInt`. -/

/-- The configuration fields `DPICalculator.__init__` reads (lines 15-23). -/
structure DPIConfig where
  target_width : ℚ
  target_height : ℚ
  min_dpi : ℚ
  max_dpi : ℚ
  default_dpi : ℤ
deriving Repr, DecidableEq

/-- The default configuration: `target_size=[2048, 2560]`, `min_dpi=50`,
`max_dpi=600`, `default_dpi=300` (lines 20-23). -/
def defaultDPIConfig : DPIConfig := ⟨2048, 2560, 50, 600, 300⟩

/-- Lines 44-49: the aspect-ratio-preserving fit
`min(target_width*72/page_width, target_height*72/page_height)`. -/
def fitDpi (cfg : DPIConfig) (page_width page_height : ℚ) : ℚ :=
  min (cfg.target_width * 72 / page_width) (cfg.target_height * 72 / page_height)

/-- `DPICalculator.calculate_optimal_dpi` (lines 27-59): default DPI for a
non-positive page size (lines 38-40), otherwise the fit clamped to
`[min_dpi, max_dpi]` (line 52) and truncated to an integer (line 55). -/
def calculateOptimalDpi (cfg : DPIConfig) (page_width page_height : ℚ) : ℤ :=
  if page_width ≤ 0 ∨ page_height ≤ 0 then cfg.default_dpi
  else pyInt (max cfg.min_dpi (min cfg.max_dpi (fitDpi cfg page_width page_height)))

/-! ## Helper lemmas -/

/-- The concrete `Rat.floor` agrees with the `FloorRing` floor on `ℚ`. -/
theorem ratFloor_eq (x : ℚ) : x.floor = ⌊x⌋ := by
  rw [Rat.floor_def, Rat.floor_def']

/-- On non-negative rationals Python truncation is the floor. -/
theorem pyInt_of_nonneg {x : ℚ} (h : 0 ≤ x) : pyInt x = ⌊x⌋ := if_pos h

/-- A fold whose step fixes every element of the list returns its seed. -/
theorem foldl_fixed {α β : Type} (f : β → α → β) (l : List α) (b : β)
    (h : ∀ a ∈ l, ∀ x, f x a = x) : l.foldl f b = b := by
  induction l generalizing b with
  | nil => rfl
  | cons a t ih =>
    rw [List.foldl_cons, h a (List.mem_cons_self a t)]
    exact ih b (fun a ha x => h a (List.mem_cons_of_mem _ ha) x)

/-- The source clamp (two sequential `if`s) agrees with the spec clamp. -/
theorem clampMergedPageCount_eq_spec (s : ℤ) :
    clampMergedPageCount s = specClamp13 s := by
  simp only [clampMergedPageCount, specClamp13]
  split_ifs <;> omega

/-- The spec clamp only produces 1, 2 or 3. -/
theorem specClamp13_mem (s : ℤ) :
    specClamp13 s = 1 ∨ specClamp13 s = 2 ∨ specClamp13 s = 3 := by
  simp only [specClamp13]
  split_ifs <;> omega

/-- The running page-count sum of the source equals the spec-side sum of the
non-null values supplied by successful results. -/
theorem mergedPageCountRaw_eq_spec (individual_results : List IndividualResult) :
    mergedPageCountRaw individual_results = specPageCountSum individual_results := by
  have aux : ∀ (rs : List IndividualResult) (a : ℤ),
      rs.foldl (fun s res =>
        if res.success then
          match res.judgment.page_count with
          | some pc => s + pc
          | none => s
        else s) a = a + specPageCountSum rs := by
    intro rs
    induction rs with
    | nil => intro a; simp [specPageCountSum]
    | cons r t ih =>
      intro a
      rw [List.foldl_cons, ih]
      by_cases hs : r.success
      · cases hpc : r.judgment.page_count with
        | none => simp [specPageCountSum, List.filter_cons, hs, hpc]
        | some pc =>
          simp only [hs, if_true, hpc]
          simp [specPageCountSum, List.filter_cons, hs, hpc]
          ring
      · simp [specPageCountSum, List.filter_cons, hs]
  rw [mergedPageCountRaw, aux, specPageCountSum]
  ring

/-- The worst-value fold of the source is the fold of `max` over the list of
valid severity values supplied by successful results. -/
theorem worstReadabilityVal_eq_foldl (individual_results : List IndividualResult) :
    worstReadabilityVal individual_results =
      ((individual_results.filter (·.success)).filterMap
        (fun res => levelOrder (pyLower ((res.judgment.readability_issues).getD "")))).foldl
        max (-1) := by
  have aux : ∀ (rs : List IndividualResult) (a : ℤ),
      rs.foldl (fun w res =>
        if res.success then
          match levelOrder (pyLower ((res.judgment.readability_issues).getD "")) with
          | some v => max w v
          | none => w
        else w) a =
      ((rs.filter (·.success)).filterMap
        (fun res => levelOrder (pyLower ((res.judgment.readability_issues).getD "")))).foldl
        max a := by
    intro rs
    induction rs with
    | nil => intro a; rfl
    | cons r t ih =>
      intro a
      by_cases hs : r.success
      · cases hL : levelOrder (pyLower ((r.judgment.readability_issues).getD "")) with
        | none => simp [List.filter_cons, hs, List.filterMap_cons, hL, ih]
        | some v => simp [List.filter_cons, hs, List.filterMap_cons, hL, ih]
      · simp [List.filter_cons, hs, ih]
  exact aux individual_results (-1)

/-- Folding `max` from a seed computes the maximum of the seed and the list
maximum (in `WithBot ℤ`). -/
theorem foldl_max_eq_maximum (l : List ℤ) (a : ℤ) :
    ((l.foldl max a : ℤ) : WithBot ℤ) = max (a : WithBot ℤ) l.maximum := by
  induction l generalizing a with
  | nil =>
    rw [List.foldl_nil, List.maximum_nil]
    exact (max_eq_left bot_le).symm
  | cons b t ih =>
    rw [List.foldl_cons, ih, List.maximum_cons, ← max_assoc, WithBot.coe_max]

/-- A value produced by the `order` lookup is one of 0, 1, 2. -/
theorem levelOrder_cases {s : String} {v : ℤ} (h : levelOrder s = some v) :
    v = 0 ∨ v = 1 ∨ v = 2 := by
  simp only [levelOrder] at h
  split_ifs at h <;> simp_all

/-- The merged readability string of the source equals the spec-side maximum
severity. -/
theorem mergedReadability_eq_spec (individual_results : List IndividualResult) :
    mergedReadability individual_results = specWorstReadability individual_results := by
  rw [mergedReadability, specWorstReadability, worstReadabilityVal_eq_foldl]
  set L := (individual_results.filter (·.success)).filterMap
    (fun res => levelOrder (pyLower ((res.judgment.readability_issues).getD ""))) with hL
  rcases eq_or_ne L [] with h | h
  · rw [h]
    simp [List.maximum_nil]
  · have hbot : L.maximum ≠ ⊥ := fun hb => h (List.maximum_eq_bot.mp hb)
    rcases hm : L.maximum with _ | v
    · exact absurd hm hbot
    · have hmem : v ∈ L := List.maximum_mem hm
      have hv : v = 0 ∨ v = 1 ∨ v = 2 := by
        rw [hL] at hmem
        rcases List.mem_filterMap.mp hmem with ⟨res, _, hres⟩
        exact levelOrder_cases hres
      have hfold : L.foldl max (-1) = v := by
        have h1 := foldl_max_eq_maximum L (-1)
        rw [hm, WithBot.some_eq_coe, ← WithBot.coe_max] at h1
        have heq : max (-1 : ℤ) v = v := max_eq_right (by omega)
        rw [heq] at h1
        exact WithBot.coe_injective h1
      rw [hfold, if_pos (by omega : (0:ℤ) ≤ v)]

/-- A boolean field merged over failed-only results is the string "False". -/
theorem mergeBoolField_all_failed (get : PageCountJudgment → Option Bool)
    (individual_results : List IndividualResult)
    (hfail : ∀ r ∈ individual_results, r.success = false)
    (hempty : get PageCountJudgment.empty = none) :
    mergeBoolField get individual_results = "False" := by
  rw [mergeBoolField]
  rw [foldl_fixed _ _ _ (fun r hr x => by simp [hfail r hr, hempty])]
  rfl

/-- The page-count sum over failed-only results is 0. -/
theorem mergedPageCountRaw_all_failed (individual_results : List IndividualResult)
    (hfail : ∀ r ∈ individual_results, r.success = false) :
    mergedPageCountRaw individual_results = 0 := by
  rw [mergedPageCountRaw]
  exact foldl_fixed _ _ _ (fun r hr x => by simp [hfail r hr])

/-- The confidence list over failed-only results is empty. -/
theorem confidenceList_all_failed (get : PageCountJudgment → Option ℚ)
    (individual_results : List IndividualResult)
    (hfail : ∀ r ∈ individual_results, r.success = false) :
    confidenceList get individual_results = [] := by
  rw [confidenceList]
  exact foldl_fixed _ _ _ (fun r hr x => by simp [hfail r hr])

/-- The merged readability over failed-only results is "none". -/
theorem mergedReadability_all_failed (individual_results : List IndividualResult)
    (hfail : ∀ r ∈ individual_results, r.success = false) :
    mergedReadability individual_results = "none" := by
  rw [mergedReadability, worstReadabilityVal]
  rw [foldl_fixed _ _ _ (fun r hr x => by simp [hfail r hr])]
  rfl

/-- The comment-line list over failed-only results is empty. -/
theorem commentLines_all_failed (get : PageCountJudgment → Option String)
    (individual_results : List IndividualResult)
    (hfail : ∀ r ∈ individual_results, r.success = false) :
    commentLines get individual_results = [] := by
  rw [commentLines]
  refine foldl_fixed _ _ _ (fun p hp x => ?_)
  have hmem : p.2 ∈ individual_results := List.snd_mem_of_mem_enum hp
  simp [hfail p.2 hmem]

/-- Claim C1: for every (non-empty) list of per-image page-count judgment
results for one page, the merged `page_count` equals the sum of the
individual non-null integer `page_count` values clamped to `[1,3]`
(sum ≤ 0 → 1, sum > 3 → 3), hence is always in `{1,2,3}`; concrete inputs
realizing the sums -5, 0, 1, 2, 3, 4, 10 merge to 1, 1, 1, 2, 3, 3, 3. -/
theorem c1_page_count_merge :
    (∀ individual_results : List IndividualResult, individual_results ≠ [] →
      ∀ m, mergeIndividualResults individual_results = some m →
        m.page_count = specClamp13 (specPageCountSum individual_results) ∧
          (m.page_count = 1 ∨ m.page_count = 2 ∨ m.page_count = 3)) ∧
    (mergeIndividualResults [mkPageCountResult (-5)]).map MergedJudgment.page_count = some 1 ∧
    (mergeIndividualResults [mkPageCountResult 0]).map MergedJudgment.page_count = some 1 ∧
    (mergeIndividualResults [mkPageCountResult 1]).map MergedJudgment.page_count = some 1 ∧
    (mergeIndividualResults [mkPageCountResult 2]).map MergedJudgment.page_count = some 2 ∧
    (mergeIndividualResults [mkPageCountResult 3]).map MergedJudgment.page_count = some 3 ∧
    (mergeIndividualResults [mkPageCountResult 1, mkPageCountResult 3]).map
      MergedJudgment.page_count = some 3 ∧
    (mergeIndividualResults [mkPageCountResult 10]).map MergedJudgment.page_count = some 3 := by
  refine ⟨?_, by decide, by decide, by decide, by decide, by decide, by decide, by decide⟩
  intro rs hne m hm
  rw [mergeIndividualResults, if_neg hne] at hm
  obtain rfl := Option.some.inj hm
  constructor
  · show clampMergedPageCount (mergedPageCountRaw rs) = _
    rw [clampMergedPageCount_eq_spec, mergedPageCountRaw_eq_spec]
  · show clampMergedPageCount (mergedPageCountRaw rs) = 1 ∨ _ ∨ _
    rw [clampMergedPageCount_eq_spec]
    exact specClamp13_mem _

/-- Witness for C1 at the concrete input `[mkPageCountResult 2]`. -/
theorem c1_page_count_merge_witness :
    ([mkPageCountResult 2] ≠ ([] : List IndividualResult)) ∧
    mergeIndividualResults [mkPageCountResult 2] =
      some ⟨"False", "False", 2, none, none, "none", none, none⟩ ∧
    ((⟨"False", "False", 2, none, none, "none", none, none⟩ : MergedJudgment).page_count =
        specClamp13 (specPageCountSum [mkPageCountResult 2]) ∧
      ((⟨"False", "False", 2, none, none, "none", none, none⟩ : MergedJudgment).page_count = 1 ∨
        (⟨"False", "False", 2, none, none, "none", none, none⟩ : MergedJudgment).page_count = 2 ∨
        (⟨"False", "False", 2, none, none, "none", none, none⟩ : MergedJudgment).page_count = 3)) :=
  ⟨by decide, by decide,
    c1_page_count_merge.1 [mkPageCountResult 2] (by decide) _ (by decide)⟩

/-- Counterexample for C2: the claim says the empty input list merges to the
readability level `none`, but `_merge_individual_results` returns the
failure dict (no merged judgment at all) for the empty list. -/
theorem c2_readability_empty_cex : mergeIndividualResults [] = none := rfl

/-- Claim C2 (amended): for every *non-empty* list of per-image judgment
results, the merged `readability_issues` is the maximum of the individual
levels under `none(0) < minor(1) < major(2)`, defaulting to `none` when
absent from every individual result; `[none, minor]` merges to `minor` and
`[major, none, minor]` merges to `major`.  The empty input yields the
failure result instead of a merged `none`. -/
theorem c2_readability_merge_max :
    (∀ individual_results : List IndividualResult, individual_results ≠ [] →
      ∀ m, mergeIndividualResults individual_results = some m →
        m.readability_issues = specWorstReadability individual_results) ∧
    (mergeIndividualResults [mkReadabilityResult "none", mkReadabilityResult "minor"]).map
      MergedJudgment.readability_issues = some "minor" ∧
    (mergeIndividualResults [mkReadabilityResult "major", mkReadabilityResult "none",
      mkReadabilityResult "minor"]).map MergedJudgment.readability_issues = some "major" := by
  refine ⟨?_, by decide, by decide⟩
  intro rs hne m hm
  rw [mergeIndividualResults, if_neg hne] at hm
  obtain rfl := Option.some.inj hm
  exact mergedReadability_eq_spec rs

/-- Witness for C2 (amended) at the concrete input `[mkReadabilityResult "minor"]`. -/
theorem c2_readability_merge_max_witness :
    ([mkReadabilityResult "minor"] ≠ ([] : List IndividualResult)) ∧
    mergeIndividualResults [mkReadabilityResult "minor"] =
      some ⟨"False", "False", 1, none, none, "minor", none, none⟩ ∧
    (⟨"False", "False", 1, none, none, "minor", none, none⟩ : MergedJudgment).readability_issues =
      specWorstReadability [mkReadabilityResult "minor"] :=
  ⟨by decide, by decide,
    c2_readability_merge_max.1 [mkReadabilityResult "minor"] (by decide) _ (by decide)⟩

/-- Claim C10: the merge returns the failure result exactly for the empty
input list; a non-empty list whose results all have `success = false`
merges successfully into the default judgment: `page_count` 1 (the zero sum
clamped up), both boolean fields false ("False"), readability `none`, and
null confidence averages. -/
theorem c10_merge_all_failed :
    (∀ individual_results : List IndividualResult,
      mergeIndividualResults individual_results = none ↔ individual_results = []) ∧
    (∀ individual_results : List IndividualResult, individual_results ≠ [] →
      (∀ r ∈ individual_results, r.success = false) →
      mergeIndividualResults individual_results =
        some ⟨"False", "False", 1, none, none, "none", none, none⟩) := by
  constructor
  · intro rs
    constructor
    · intro h
      by_contra hne
      rw [mergeIndividualResults, if_neg hne] at h
      exact Option.noConfusion h
    · intro h
      subst h
      rfl
  · intro rs hne hfail
    rw [mergeIndividualResults, if_neg hne]
    refine congrArg some ?_
    rw [mergeBoolField_all_failed _ rs hfail rfl, mergeBoolField_all_failed _ rs hfail rfl,
      mergedPageCountRaw_all_failed rs hfail, confidenceList_all_failed _ rs hfail,
      confidenceList_all_failed _ rs hfail, mergedReadability_all_failed rs hfail,
      commentLines_all_failed _ rs hfail, commentLines_all_failed _ rs hfail]
    rfl

/-- Witness for C10 at the concrete input `[mkFailedResult]`. -/
theorem c10_merge_all_failed_witness :
    (mergeIndividualResults [mkFailedResult] = none ↔
      [mkFailedResult] = ([] : List IndividualResult)) ∧
    ([mkFailedResult] ≠ ([] : List IndividualResult)) ∧
    (∀ r ∈ [mkFailedResult], r.success = false) ∧
    mergeIndividualResults [mkFailedResult] =
      some ⟨"False", "False", 1, none, none, "none", none, none⟩ :=
  ⟨c10_merge_all_failed.1 [mkFailedResult], by decide, by decide,
    c10_merge_all_failed.2 [mkFailedResult] (by decide) (by decide)⟩

/-- Counterexample for C5: at raw angle -45 the source returns 0 (its first
branch `-45 <= angle <= 45` wins), while the claim's intervals
`(-45,45]→0, [-135,-45]→-90` put -45 in the -90 bucket. -/
theorem c5_angle_bucket_cex :
    extractRotationAngleNum (-45) = 0 ∧ specBucketAngle (-45) = -90 ∧
      extractRotationAngleNum (-45) ≠ specBucketAngle (-45) := by decide

/-- Claim C5 (amended): the source buckets with the *closed* interval
`[-45,45]→0`, so the `-90` bucket is the half-open `[-135,-45)`; away from
the boundary point -45 this agrees with the claimed bucketing, and all six
example values of the claim hold. -/
theorem c5_angle_bucket_amended :
    (∀ angle : ℤ, extractRotationAngleNum angle = amendedBucketAngle angle) ∧
    (∀ angle : ℤ, angle ≠ -45 →
      extractRotationAngleNum angle = specBucketAngle angle) ∧
    extractRotationAngleNum 44 = 0 ∧ extractRotationAngleNum 46 = 90 ∧
    extractRotationAngleNum 134 = 90 ∧ extractRotationAngleNum 136 = 180 ∧
    extractRotationAngleNum (-44) = 0 ∧ extractRotationAngleNum (-46) = -90 := by
  refine ⟨fun angle => rfl, ?_, by decide, by decide, by decide, by decide, by decide, by decide⟩
  intro a ha
  unfold extractRotationAngleNum specBucketAngle
  split_ifs <;> omega

/-- Witness for C5 (amended) at the concrete angle 46. -/
theorem c5_angle_bucket_amended_witness :
    ((46 : ℤ) ≠ -45) ∧ extractRotationAngleNum 46 = specBucketAngle 46 :=
  ⟨by decide, c5_angle_bucket_amended.2.1 46 (by decide)⟩

/-- Counterexample for C9: with the default configuration, the page sizes
(1024, 1280) and their aspect-preserving doubling (2048, 2560) both stay
strictly inside the clamp range, yet the computed DPIs are 144 and 72 -
doubling the page halves the DPI instead of leaving it fixed. -/
theorem c9_dpi_doubling_cex :
    calculateOptimalDpi defaultDPIConfig 1024 1280 = 144 ∧
    calculateOptimalDpi defaultDPIConfig (2 * 1024) (2 * 1280) = 72 ∧
    defaultDPIConfig.min_dpi < fitDpi defaultDPIConfig 1024 1280 ∧
    fitDpi defaultDPIConfig 1024 1280 < defaultDPIConfig.max_dpi ∧
    defaultDPIConfig.min_dpi < fitDpi defaultDPIConfig (2 * 1024) (2 * 1280) ∧
    fitDpi defaultDPIConfig (2 * 1024) (2 * 1280) < defaultDPIConfig.max_dpi ∧
    calculateOptimalDpi defaultDPIConfig 1024 1280 ≠
      calculateOptimalDpi defaultDPIConfig (2 * 1024) (2 * 1280) := by
  have h1 : calculateOptimalDpi defaultDPIConfig 1024 1280 = 144 := by
    rw [calculateOptimalDpi, if_neg (by norm_num),
      pyInt_of_nonneg (by norm_num [fitDpi, defaultDPIConfig])]
    norm_num [fitDpi, defaultDPIConfig]
  have h2 : calculateOptimalDpi defaultDPIConfig (2 * 1024) (2 * 1280) = 72 := by
    rw [calculateOptimalDpi, if_neg (by norm_num),
      pyInt_of_nonneg (by norm_num [fitDpi, defaultDPIConfig])]
    norm_num [fitDpi, defaultDPIConfig]
  refine ⟨h1, h2, by norm_num [fitDpi, defaultDPIConfig],
    by norm_num [fitDpi, defaultDPIConfig], by norm_num [fitDpi, defaultDPIConfig],
    by norm_num [fitDpi, defaultDPIConfig], by rw [h1, h2]; decide⟩

/-- Claim C9 (amended): for positive page sizes the computed DPI is
`int(clamp(min(target_w*72/page_w, target_h*72/page_h), dpi_min, dpi_max))`
exactly as claimed; but the computation is *not* fixed under
aspect-ratio-preserving doubling of the page: the unclamped fit halves
(`fitDpi cfg (2w) (2h) = fitDpi cfg w h / 2`), so when neither clamp bound
is hit at either size the result is the truncated *half*.  The invariant
preserved by the formula is the target pixel envelope, not the DPI value. -/
theorem c9_dpi_formula_and_halving :
    (∀ (cfg : DPIConfig) (w h : ℚ), 0 < w → 0 < h →
      calculateOptimalDpi cfg w h =
        pyInt (max cfg.min_dpi (min cfg.max_dpi
          (min (cfg.target_width * 72 / w) (cfg.target_height * 72 / h))))) ∧
    (∀ (cfg : DPIConfig) (w h : ℚ),
      fitDpi cfg (2 * w) (2 * h) = fitDpi cfg w h / 2) ∧
    (∀ (cfg : DPIConfig) (w h : ℚ), 0 < w → 0 < h →
      0 ≤ cfg.min_dpi →
      cfg.min_dpi ≤ fitDpi cfg w h / 2 → fitDpi cfg w h ≤ cfg.max_dpi →
      calculateOptimalDpi cfg w h = pyInt (fitDpi cfg w h) ∧
      calculateOptimalDpi cfg (2 * w) (2 * h) = pyInt (fitDpi cfg w h / 2)) := by
  have hhalf : ∀ (cfg : DPIConfig) (w h : ℚ),
      fitDpi cfg (2 * w) (2 * h) = fitDpi cfg w h / 2 := by
    intro cfg w h
    have e1 : cfg.target_width * 72 / (2 * w) = cfg.target_width * 72 / w / 2 := by
      rw [div_div, mul_comm w 2]
    have e2 : cfg.target_height * 72 / (2 * h) = cfg.target_height * 72 / h / 2 := by
      rw [div_div, mul_comm h 2]
    rw [fitDpi, fitDpi, e1, e2, min_div_div_right (by norm_num : (0:ℚ) ≤ 2)]
  refine ⟨?_, hhalf, ?_⟩
  · intro cfg w h hw hh
    rw [calculateOptimalDpi, if_neg (by push_neg; exact ⟨hw, hh⟩)]
    rfl
  · intro cfg w h hw hh hmin0 hmin hmax
    have hf0 : 0 ≤ fitDpi cfg w h / 2 := le_trans hmin0 hmin
    have hf : fitDpi cfg w h / 2 ≤ fitDpi cfg w h := by linarith
    constructor
    · rw [calculateOptimalDpi, if_neg (by push_neg; exact ⟨hw, hh⟩)]
      rw [min_eq_right hmax, max_eq_right (le_trans hmin hf)]
    · have hw2 : (0:ℚ) < 2 * w := by positivity
      have hh2 : (0:ℚ) < 2 * h := by positivity
      rw [calculateOptimalDpi, if_neg (by push_neg; exact ⟨hw2, hh2⟩),
        hhalf, min_eq_right (le_trans hf hmax), max_eq_right hmin]

/-- Witness for C9 (amended) at the default configuration and page size
(1024, 1280). -/
theorem c9_dpi_formula_and_halving_witness :
    ((0:ℚ) < 1024) ∧ ((0:ℚ) < 1280) ∧ (0 ≤ defaultDPIConfig.min_dpi) ∧
    (defaultDPIConfig.min_dpi ≤ fitDpi defaultDPIConfig 1024 1280 / 2) ∧
    (fitDpi defaultDPIConfig 1024 1280 ≤ defaultDPIConfig.max_dpi) ∧
    (calculateOptimalDpi defaultDPIConfig 1024 1280 =
        pyInt (fitDpi defaultDPIConfig 1024 1280) ∧
      calculateOptimalDpi defaultDPIConfig (2 * 1024) (2 * 1280) =
        pyInt (fitDpi defaultDPIConfig 1024 1280 / 2)) :=
  ⟨by norm_num, by norm_num, by norm_num [defaultDPIConfig],
   by norm_num [fitDpi, defaultDPIConfig], by norm_num [fitDpi, defaultDPIConfig],
   c9_dpi_formula_and_halving.2.2 defaultDPIConfig 1024 1280 (by norm_num) (by norm_num)
     (by norm_num [defaultDPIConfig]) (by norm_num [fitDpi, defaultDPIConfig])
     (by norm_num [fitDpi, defaultDPIConfig])⟩

/-- Counterexample for C3: for image width 1010 and overlap ratio 1/10 the
overlap width `int(1010 * 0.1) = 101` is odd, and the two output slices of
the forced split share a band of `left_end - right_start = 100 ≠ 101 =
floor(W * overlap_ratio)` columns, refuting the claimed equality. -/
theorem c3_forced_split_cex :
    (splitLeftRightSpans 1010 (1/10)).1.hi - (splitLeftRightSpans 1010 (1/10)).2.lo = 100 ∧
    overlapWidth 1010 (1/10) = 101 ∧
    (splitLeftRightSpans 1010 (1/10)).1.hi - (splitLeftRightSpans 1010 (1/10)).2.lo ≠
      overlapWidth 1010 (1/10) := by
  have h : overlapWidth 1010 (1/10) = 101 := by
    rw [overlapWidth, pyInt_of_nonneg (by norm_num)]
    norm_num
  have hs : splitLeftRightSpans 1010 (1/10) = (⟨0, 555⟩, ⟨455, 1010⟩) := by
    rw [splitLeftRightSpans, h]
    decide
  rw [hs, h]
  refine ⟨by decide, rfl, by decide⟩

/-- Claim C3 (amended): when the merged `page_count` is 2, the page is not
skipped and holds exactly one processed image `[0, W)`, the forced split
replaces it with exactly the two slices `[0, W//2 + ow//2)` and
`[W//2 - ow//2, W)` for `ow = int(W * overlap_ratio)`; the shared band is
`left_end - right_start = 2*(ow//2)` columns wide, which equals
`floor(W*overlap_ratio)` only when that overlap width is even - as in the
claim's example `W = 1000`, `overlap_ratio = 0.1`, where the band is
`100 = floor(1000*0.1)`.  Every other page is returned unchanged. -/
theorem c3_forced_split :
    (∀ (W : ℤ) (overlap_ratio : ℚ) (p : SplitPage),
      0 ≤ overlap_ratio → overlap_ratio ≤ 1 → 0 ≤ W →
      p.page_count = some 2 → p.skip_processing = false →
      p.processed_images = [⟨0, W⟩] →
      splitPage overlap_ratio p =
        { p with processed_images :=
            [⟨0, W / 2 + overlapWidth W overlap_ratio / 2⟩,
             ⟨W / 2 - overlapWidth W overlap_ratio / 2, W⟩] } ∧
      (W / 2 + overlapWidth W overlap_ratio / 2) -
          (W / 2 - overlapWidth W overlap_ratio / 2) =
        2 * (overlapWidth W overlap_ratio / 2)) ∧
    (∀ (overlap_ratio : ℚ) (p : SplitPage),
      shouldSplitPage p = false → splitPage overlap_ratio p = p) ∧
    ((splitLeftRightSpans 1000 (1/10)).1.hi - (splitLeftRightSpans 1000 (1/10)).2.lo =
        overlapWidth 1000 (1/10) ∧
      overlapWidth 1000 (1/10) = 100) := by
  refine ⟨?_, ?_, ?_⟩
  · intro W r p hr0 hr1 hW hpc hskip himg
    have hshould : shouldSplitPage p = true := by
      simp [shouldSplitPage, hpc, hskip, himg]
    constructor
    · simp only [splitPage, hshould, if_true, himg]
      simp [splitLeftRightSpans, ColumnSpan.width]
    · ring
  · intro r p h
    simp [splitPage, h]
  · have h : overlapWidth 1000 (1/10) = 100 := by
      rw [overlapWidth, pyInt_of_nonneg (by norm_num)]
      norm_num
    have hs : splitLeftRightSpans 1000 (1/10) = (⟨0, 550⟩, ⟨450, 1000⟩) := by
      rw [splitLeftRightSpans, h]
      decide
    rw [hs, h]
    exact ⟨by decide, rfl⟩

/-- Witness for C3 (amended) on a concrete qualifying page of width 1000. -/
theorem c3_forced_split_witness :
    ((0:ℚ) ≤ 1/10) ∧ ((1/10 : ℚ) ≤ 1) ∧ ((0:ℤ) ≤ 1000) ∧
    (({ page_number := 1, page_count := some 2, skip_processing := false,
        processed_images := [⟨0, 1000⟩] } : SplitPage).page_count = some 2) ∧
    (({ page_number := 1, page_count := some 2, skip_processing := false,
        processed_images := [⟨0, 1000⟩] } : SplitPage).skip_processing = false) ∧
    (({ page_number := 1, page_count := some 2, skip_processing := false,
        processed_images := [⟨0, 1000⟩] } : SplitPage).processed_images = [⟨0, 1000⟩]) ∧
    (splitPage (1/10)
        ({ page_number := 1, page_count := some 2, skip_processing := false,
           processed_images := [⟨0, 1000⟩] } : SplitPage) =
      { page_number := 1, page_count := some 2, skip_processing := false,
        processed_images :=
          [⟨0, 1000 / 2 + overlapWidth 1000 (1/10) / 2⟩,
           ⟨1000 / 2 - overlapWidth 1000 (1/10) / 2, 1000⟩] } ∧
      ((1000:ℤ) / 2 + overlapWidth 1000 (1/10) / 2) -
          (1000 / 2 - overlapWidth 1000 (1/10) / 2) =
        2 * (overlapWidth 1000 (1/10) / 2)) :=
  ⟨by norm_num, by norm_num, by norm_num, rfl, rfl, rfl,
    c3_forced_split.1 1000 (1/10)
      ({ page_number := 1, page_count := some 2, skip_processing := false,
         processed_images := [⟨0, 1000⟩] } : SplitPage)
      (by norm_num) (by norm_num) (by norm_num) rfl rfl rfl⟩

/-- Counterexample for C6: on a judgment failure `_process_single_page`
marks the page result `success: False` (lines 177-181) - the page *is*
recorded as a failed page - and it does not assign the claimed defaults:
`needs_dewarping` and `readability_issues` stay absent from the result. -/
theorem c6_judgment_failure_cex :
    (step2ProcessSinglePage "page_001.jpg" 1
        ⟨false, DistortionJudgment.empty, some "API timeout"⟩
        ⟨false, ""⟩ ⟨false, false, [], ""⟩).success = false ∧
    (step2ProcessSinglePage "page_001.jpg" 1
        ⟨false, DistortionJudgment.empty, some "API timeout"⟩
        ⟨false, ""⟩ ⟨false, false, [], ""⟩).needs_dewarping = none ∧
    (step2ProcessSinglePage "page_001.jpg" 1
        ⟨false, DistortionJudgment.empty, some "API timeout"⟩
        ⟨false, ""⟩ ⟨false, false, [], ""⟩).readability_issues = none := by
  refine ⟨rfl, rfl, rfl⟩

/-- Claim C6 (amended): when the Stage2 distortion judgment call fails for a
page, the per-page result is marked failed (`success = false` with the
error recorded) rather than merely degraded, the judgment-derived keys
(`needs_dewarping`, readability level) are left unset rather than set to
defaults, but the page keeps its original image in `processed_images`, is
never marked `skip_processing` (no such field is ever written), and the
stage still completes: `process_pages` includes the page in its
`page_results` and returns overall `success: True`, so the failure does
not abort the pipeline. -/
theorem c6_judgment_failure_flow :
    ∀ (image_path : String) (page_number : ℕ) (llm : LLMJudgmentResult)
      (reprocess : ReprocessOutcome) (dewarp : DewarpOutcome),
      llm.success = false →
      step2ProcessSinglePage image_path page_number llm reprocess dewarp =
        { page_number := page_number
          success := false
          error := some ("LLM judgment failed: " ++ (llm.error.getD ""))
          original_image := image_path
          processed_image := image_path
          processed_images := [image_path]
          needs_dewarping := none
          readability_issues := none
          reprocessed_at_scale := none
          dewarping_applied := none } ∧
      (step2ProcessPages
        [(0, step2ProcessSinglePage image_path page_number llm reprocess dewarp)]).1 = true ∧
      (step2ProcessPages
        [(0, step2ProcessSinglePage image_path page_number llm reprocess dewarp)]).2 =
        [step2ProcessSinglePage image_path page_number llm reprocess dewarp] := by
  intro image_path page_number llm reprocess dewarp hfail
  refine ⟨?_, rfl, ?_⟩
  · simp [step2ProcessSinglePage, hfail]
  · simp [step2ProcessPages, gatherResults, List.insertionSort, List.orderedInsert]

/-- Witness for C6 (amended) at a concrete failing judgment. -/
theorem c6_judgment_failure_flow_witness :
    ((⟨false, DistortionJudgment.empty, some "API timeout"⟩ : LLMJudgmentResult).success
      = false) ∧
    (step2ProcessSinglePage "page_001.jpg" 1
        ⟨false, DistortionJudgment.empty, some "API timeout"⟩
        ⟨false, ""⟩ ⟨false, false, [], ""⟩ =
      { page_number := 1
        success := false
        error := some ("LLM judgment failed: " ++
          (((⟨false, DistortionJudgment.empty, some "API timeout"⟩ :
            LLMJudgmentResult).error).getD ""))
        original_image := "page_001.jpg"
        processed_image := "page_001.jpg"
        processed_images := ["page_001.jpg"]
        needs_dewarping := none
        readability_issues := none
        reprocessed_at_scale := none
        dewarping_applied := none } ∧
      (step2ProcessPages
        [(0, step2ProcessSinglePage "page_001.jpg" 1
          ⟨false, DistortionJudgment.empty, some "API timeout"⟩
          ⟨false, ""⟩ ⟨false, false, [], ""⟩)]).1 = true ∧
      (step2ProcessPages
        [(0, step2ProcessSinglePage "page_001.jpg" 1
          ⟨false, DistortionJudgment.empty, some "API timeout"⟩
          ⟨false, ""⟩ ⟨false, false, [], ""⟩)]).2 =
        [step2ProcessSinglePage "page_001.jpg" 1
          ⟨false, DistortionJudgment.empty, some "API timeout"⟩
          ⟨false, ""⟩ ⟨false, false, [], ""⟩]) :=
  ⟨rfl, c6_judgment_failure_flow "page_001.jpg" 1
    ⟨false, DistortionJudgment.empty, some "API timeout"⟩
    ⟨false, ""⟩ ⟨false, false, [], ""⟩ rfl⟩

/-- A text collection pass succeeds exactly when some globbed file has
non-empty stripped content. -/
theorem collectTexts_success_iff (files : List (String × String)) :
    (collectTexts files).success = true ↔ ∃ f ∈ files, pyStrip f.2 ≠ "" := by
  have aux : ∀ (l : List (String × String))
      (acc : List CollectedText × List String × List String),
      ((l.foldl (fun (acc : List CollectedText × List String × List String)
          (f : String × String) =>
        let content := pyStrip f.2
        if content ≠ "" then
          (acc.1 ++ [⟨f.1, content⟩], acc.2.1 ++ [f.1], acc.2.2)
        else
          (acc.1, acc.2.1, acc.2.2 ++ [f.1])) acc).2.1).length =
      acc.2.1.length + l.countP (fun f => decide (pyStrip f.2 ≠ "")) := by
    intro l
    induction l with
    | nil => intro acc; simp
    | cons f t ih =>
      intro acc
      by_cases hf : pyStrip f.2 ≠ ""
      · simp only [List.foldl_cons, if_pos hf, ih, List.countP_cons]
        simp [hf]
        omega
      · simp only [List.foldl_cons, if_neg hf, ih, List.countP_cons]
        simp [hf]
  rw [collectTexts]
  simp only [gt_iff_lt, decide_eq_true_eq]
  rw [aux]
  simp only [List.length_nil, Nat.zero_add]
  rw [(List.perm_insertionSort _ files).countP_eq]
  rw [List.countP_pos_iff]
  simp

/-- Claim C7: each engine's collection pass succeeds exactly when it read at
least one file with non-empty (stripped) text, and Stage7 takes its fatal
error path exactly when both engines' collections yield zero non-empty
texts - so the stage proceeds toward success iff at least one engine
produced at least one non-empty text file.  (Filesystem-level failures -
missing result directories, unreadable files, write errors - are outside
the embedding.) -/
theorem c7_step7_fatal_iff :
    ∀ (gemini_files document_ai_files : List (String × String)),
      ((collectTexts gemini_files).success = true ↔
        ∃ f ∈ gemini_files, pyStrip f.2 ≠ "") ∧
      ((collectTexts document_ai_files).success = true ↔
        ∃ f ∈ document_ai_files, pyStrip f.2 ≠ "") ∧
      (step7CollectionFatal gemini_files document_ai_files = true ↔
        ((∀ f ∈ gemini_files, pyStrip f.2 = "") ∧
          (∀ f ∈ document_ai_files, pyStrip f.2 = ""))) := by
  intro gfiles dfiles
  refine ⟨collectTexts_success_iff gfiles, collectTexts_success_iff dfiles, ?_⟩
  rw [step7CollectionFatal]
  simp only [Bool.and_eq_true, Bool.not_eq_true']
  constructor
  · rintro ⟨hg, hd⟩
    constructor
    · intro f hf
      by_contra hne
      have := (collectTexts_success_iff gfiles).mpr ⟨f, hf, hne⟩
      rw [this] at hg
      exact Bool.noConfusion hg
    · intro f hf
      by_contra hne
      have := (collectTexts_success_iff dfiles).mpr ⟨f, hf, hne⟩
      rw [this] at hd
      exact Bool.noConfusion hd
  · rintro ⟨hg, hd⟩
    constructor
    · rcases hsg : (collectTexts gfiles).success with _ | _
      · rfl
      · rcases (collectTexts_success_iff gfiles).mp hsg with ⟨f, hf, hne⟩
        exact absurd (hg f hf) hne
    · rcases hsd : (collectTexts dfiles).success with _ | _
      · rfl
      · rcases (collectTexts_success_iff dfiles).mp hsd with ⟨f, hf, hne⟩
        exact absurd (hd f hf) hne

/-- Every index in `enumFrom n l` is at least `n`. -/
theorem le_fst_of_mem_enumFrom {α : Type} {l : List α} {n : ℕ} {p : ℕ × α}
    (hp : p ∈ l.enumFrom n) : n ≤ p.1 := by
  induction l generalizing n with
  | nil => cases hp
  | cons a t ih =>
    rw [List.enumFrom_cons] at hp
    cases hp with
    | head => exact le_refl n
    | tail _ hp => exact le_trans (Nat.le_succ n) (ih hp)

/-- The indices of `enumFrom` are strictly increasing. -/
theorem pairwise_fst_lt_enumFrom {α : Type} (l : List α) (n : ℕ) :
    (l.enumFrom n).Pairwise (fun a b => a.1 < b.1) := by
  induction l generalizing n with
  | nil => exact List.Pairwise.nil
  | cons a t ih =>
    rw [List.enumFrom_cons]
    refine List.Pairwise.cons ?_ (ih (n + 1))
    intro p hp
    exact lt_of_lt_of_le (Nat.lt_succ_self n) (le_fst_of_mem_enumFrom hp)

/-- The launch indices of `enum` are strictly increasing. -/
theorem pairwise_fst_lt_enum {α : Type} (l : List α) :
    l.enum.Pairwise (fun a b => a.1 < b.1) := pairwise_fst_lt_enumFrom l 0

/-- Rebuilding the gather output from any completion log that is a
permutation of the enumerated launch-order results recovers exactly the
launch-order result list: what `asyncio.gather` returns is independent of
the completion order. -/
theorem gatherResults_perm_enum {α : Type} (results : List α)
    (delivered : List (ℕ × α)) (hperm : delivered.Perm results.enum) :
    gatherResults delivered = results := by
  haveI htot : IsTotal (ℕ × α) (fun a b => a.1 ≤ b.1) :=
    ⟨fun a b => Nat.le_total a.1 b.1⟩
  haveI htrans : IsTrans (ℕ × α) (fun a b => a.1 ≤ b.1) :=
    ⟨fun _ _ _ h1 h2 => le_trans h1 h2⟩
  haveI hanti : IsAntisymm (ℕ × α) (fun a b => a.1 < b.1) :=
    ⟨fun a b h1 h2 => absurd h2 (not_lt_of_gt h1)⟩
  set L := List.insertionSort (fun a b : ℕ × α => a.1 ≤ b.1) delivered with hL
  have hLperm : L.Perm results.enum :=
    (List.perm_insertionSort _ delivered).trans hperm
  have hsorted_le : L.Sorted (fun a b : ℕ × α => a.1 ≤ b.1) :=
    List.sorted_insertionSort _ delivered
  have hkeys : (L.map Prod.fst).Perm (results.enum.map Prod.fst) := hLperm.map _
  have hnodupkeys : (L.map Prod.fst).Nodup := by
    refine hkeys.nodup_iff.mpr ?_
    rw [List.enum_map_fst]
    exact List.nodup_range _
  have hne : L.Pairwise (fun a b : ℕ × α => a.1 ≠ b.1) :=
    List.pairwise_map.mp hnodupkeys
  have hsorted_lt : L.Pairwise (fun a b : ℕ × α => a.1 < b.1) :=
    (hsorted_le.and hne).imp (fun h => lt_of_le_of_ne h.1 h.2)
  have hLeq : L = results.enum :=
    List.eq_of_perm_of_sorted hLperm hsorted_lt (pairwise_fst_lt_enum results)
  rw [gatherResults, ← hL, hLeq, List.enum_map_snd]

/-- Counterexample for C8: Stage3's consumer does not re-sort by
`page_number`.  Launching Stage3 tasks for pages `[3,1,2]` and letting the
task of page 1 complete last (completion log
`[(0,page3), (2,page2), (1,page1)]`) yields `page_results` in launch order
`[3,1,2]`, not the claimed `[1,2,3]`. -/
theorem c8_step3_no_resort_cex :
    (step3ProcessPages
      [(0, ⟨3, true, 0⟩), (2, ⟨2, true, 0⟩), (1, ⟨1, true, 0⟩)]).2.map
        Step3PageResult.page_number = [3, 1, 2] ∧
    ([3, 1, 2] : List ℕ) ≠ [1, 2, 3] ∧
    [(0, (⟨3, true, 0⟩ : Step3PageResult)), (2, ⟨2, true, 0⟩), (1, ⟨1, true, 0⟩)].Perm
      ([(⟨3, true, 0⟩ : Step3PageResult), ⟨1, true, 0⟩, ⟨2, true, 0⟩].enum) := by
  refine ⟨by decide, by decide, by decide⟩

/-- Claim C8 (amended): for any completion order of the per-page tasks
(modelled as a completion log permuting the enumerated launch-order
results), the accumulated result list is deterministic - `asyncio.gather`
returns results in launch order.  Stage2's consumer additionally re-sorts
by `page_number` (line 118 of `04_step2_processor.py`), so its
`page_results` handed to Stage3 is always ordered by ascending page number;
Stage3's consumer performs no such sort, so its output stays in launch
order - ordered by page number only when the input was. -/
theorem c8_result_ordering :
    (∀ (results : List Step2PageResult) (delivered : List (ℕ × Step2PageResult)),
      delivered.Perm results.enum →
      (step2ProcessPages delivered).2 =
        List.insertionSort (fun a b => a.page_number ≤ b.page_number) results ∧
      (step2ProcessPages delivered).2.Sorted
        (fun a b => a.page_number ≤ b.page_number)) ∧
    (∀ (results : List Step3PageResult) (delivered : List (ℕ × Step3PageResult)),
      delivered.Perm results.enum →
      (step3ProcessPages delivered).2 = results) := by
  constructor
  · intro results delivered hperm
    haveI htot : IsTotal Step2PageResult (fun a b => a.page_number ≤ b.page_number) :=
      ⟨fun a b => Nat.le_total a.page_number b.page_number⟩
    haveI htrans : IsTrans Step2PageResult (fun a b => a.page_number ≤ b.page_number) :=
      ⟨fun _ _ _ h1 h2 => le_trans h1 h2⟩
    have hg : gatherResults delivered = results := gatherResults_perm_enum results delivered hperm
    constructor
    · show List.insertionSort _ (gatherResults delivered) = _
      rw [hg]
    · show (List.insertionSort _ (gatherResults delivered)).Sorted _
      exact List.sorted_insertionSort _ _
  · intro results delivered hperm
    exact gatherResults_perm_enum results delivered hperm

/-- Witness for C8 (amended) on a concrete two-page completion log that
finishes out of order. -/
theorem c8_result_ordering_witness :
    ([( (1 : ℕ), (⟨2, true, none, "b", "b", ["b"], none, none, none, none⟩ : Step2PageResult)),
      (0, ⟨1, true, none, "a", "a", ["a"], none, none, none, none⟩)].Perm
      ([(⟨1, true, none, "a", "a", ["a"], none, none, none, none⟩ : Step2PageResult),
        ⟨2, true, none, "b", "b", ["b"], none, none, none, none⟩].enum)) ∧
    ((step2ProcessPages
        [(1, ⟨2, true, none, "b", "b", ["b"], none, none, none, none⟩),
         (0, ⟨1, true, none, "a", "a", ["a"], none, none, none, none⟩)]).2 =
      List.insertionSort (fun a b => a.page_number ≤ b.page_number)
        [⟨1, true, none, "a", "a", ["a"], none, none, none, none⟩,
         ⟨2, true, none, "b", "b", ["b"], none, none, none, none⟩] ∧
    (step2ProcessPages
        [(1, ⟨2, true, none, "b", "b", ["b"], none, none, none, none⟩),
         (0, ⟨1, true, none, "a", "a", ["a"], none, none, none, none⟩)]).2.Sorted
      (fun a b => a.page_number ≤ b.page_number)) :=
  ⟨by decide,
    c8_result_ordering.1
      [⟨1, true, none, "a", "a", ["a"], none, none, none, none⟩,
       ⟨2, true, none, "b", "b", ["b"], none, none, none, none⟩]
      [(1, ⟨2, true, none, "b", "b", ["b"], none, none, none, none⟩),
       (0, ⟨1, true, none, "a", "a", ["a"], none, none, none, none⟩)]
      (by decide)⟩

theorem actualSplits_pos (num_splits min_height_per_split image_height : ℕ)
    (hns : 1 ≤ num_splits) : 1 ≤ actualSplits num_splits min_height_per_split image_height := by
  rw [actualSplits]
  split_ifs with h
  · exact le_max_left 1 _
  · exact hns

theorem actualSplits_le (num_splits min_height_per_split image_height : ℕ)
    (hns : 1 ≤ num_splits) (hmh : 1 ≤ min_height_per_split) (hH : 1 ≤ image_height) :
    actualSplits num_splits min_height_per_split image_height ≤ image_height := by
  rw [actualSplits]
  split_ifs with h
  · exact max_le hH (Nat.div_le_self image_height min_height_per_split)
  · have h1 : 1 ≤ image_height / num_splits := le_trans hmh (not_lt.mp h)
    exact (Nat.one_le_div_iff (by omega)).mp h1

theorem baseSplitHeight_pos (num_splits min_height_per_split image_height : ℕ)
    (hns : 1 ≤ num_splits) (hmh : 1 ≤ min_height_per_split) (hH : 1 ≤ image_height) :
    1 ≤ baseSplitHeight num_splits min_height_per_split image_height := by
  rw [baseSplitHeight]
  refine (Nat.one_le_div_iff ?_).mpr
    (actualSplits_le num_splits min_height_per_split image_height hns hmh hH)
  exact actualSplits_pos num_splits min_height_per_split image_height hns

theorem actualSplits_mul_base_le (num_splits min_height_per_split image_height : ℕ) :
    actualSplits num_splits min_height_per_split image_height *
      baseSplitHeight num_splits min_height_per_split image_height ≤ image_height := by
  rw [baseSplitHeight, Nat.mul_comm]
  exact Nat.div_mul_le_self image_height _

theorem overlapPixels_nonneg (num_splits min_height_per_split image_height : ℕ)
    (overlap_ratio : ℚ) (hr0 : 0 ≤ overlap_ratio) :
    0 ≤ overlapPixels num_splits min_height_per_split overlap_ratio image_height := by
  rw [overlapPixels, pyInt_of_nonneg (mul_nonneg (Nat.cast_nonneg _) hr0)]
  exact Int.floor_nonneg.mpr (mul_nonneg (Nat.cast_nonneg _) hr0)

theorem overlapPixels_le_base (num_splits min_height_per_split image_height : ℕ)
    (overlap_ratio : ℚ) (hr0 : 0 ≤ overlap_ratio) (hr1 : overlap_ratio ≤ 1) :
    overlapPixels num_splits min_height_per_split overlap_ratio image_height ≤
      (baseSplitHeight num_splits min_height_per_split image_height : ℤ) := by
  rw [overlapPixels, pyInt_of_nonneg (mul_nonneg (Nat.cast_nonneg _) hr0)]
  have h1 : (baseSplitHeight num_splits min_height_per_split image_height : ℚ) * overlap_ratio ≤
      (baseSplitHeight num_splits min_height_per_split image_height : ℚ) :=
    mul_le_of_le_one_right (Nat.cast_nonneg _) hr1
  calc ⌊(baseSplitHeight num_splits min_height_per_split image_height : ℚ) * overlap_ratio⌋ ≤
      ⌊(baseSplitHeight num_splits min_height_per_split image_height : ℚ)⌋ :=
        Int.floor_le_floor h1
    _ = (baseSplitHeight num_splits min_height_per_split image_height : ℤ) :=
        Int.floor_natCast _

theorem calculateSplitRegions_getElem (num_splits min_height_per_split image_height : ℕ)
    (overlap_ratio : ℚ) (i : ℕ)
    (hi : i < actualSplits num_splits min_height_per_split image_height) :
    (calculateSplitRegions num_splits min_height_per_split overlap_ratio image_height)[i]? =
      some (splitRegion (baseSplitHeight num_splits min_height_per_split image_height)
        (overlapPixels num_splits min_height_per_split overlap_ratio image_height)
        (actualSplits num_splits min_height_per_split image_height) image_height i) := by
  rw [calculateSplitRegions]
  simp [List.getElem?_map, List.getElem?_range, hi]

theorem splitRegions_coverage (num_splits min_height_per_split image_height : ℕ)
    (overlap_ratio : ℚ) (hns : 1 ≤ num_splits) (hmh : 1 ≤ min_height_per_split)
    (hH : 1 ≤ image_height) (hr0 : 0 ≤ overlap_ratio) (hr1 : overlap_ratio ≤ 1) :
    ∀ y : ℤ,
      (∃ r ∈ calculateSplitRegions num_splits min_height_per_split overlap_ratio image_height,
        r.1 ≤ y ∧ y < r.2) ↔ (0 ≤ y ∧ y < (image_height : ℤ)) := by
  intro y
  have hA1 : 1 ≤ actualSplits num_splits min_height_per_split image_height :=
    actualSplits_pos _ _ _ hns
  have hB1 : 1 ≤ baseSplitHeight num_splits min_height_per_split image_height :=
    baseSplitHeight_pos _ _ _ hns hmh hH
  have hABn : actualSplits num_splits min_height_per_split image_height *
      baseSplitHeight num_splits min_height_per_split image_height ≤ image_height :=
    actualSplits_mul_base_le _ _ _
  have hOV0 : 0 ≤ overlapPixels num_splits min_height_per_split overlap_ratio image_height :=
    overlapPixels_nonneg _ _ _ _ hr0
  have hOVB : overlapPixels num_splits min_height_per_split overlap_ratio image_height ≤
      (baseSplitHeight num_splits min_height_per_split image_height : ℤ) :=
    overlapPixels_le_base _ _ _ _ hr0 hr1
  set A := actualSplits num_splits min_height_per_split image_height with hA
  set B := baseSplitHeight num_splits min_height_per_split image_height with hB
  set OV := overlapPixels num_splits min_height_per_split overlap_ratio image_height with hOV
  constructor
  · rintro ⟨r, hr, hy1, hy2⟩
    rw [calculateSplitRegions, List.mem_map] at hr
    obtain ⟨i, hi, rfl⟩ := hr
    rw [List.mem_range] at hi
    constructor
    · refine le_trans ?_ hy1
      simp [splitRegion]
    · rcases eq_or_ne i (A - 1) with hlast | hlast
      · have he : (splitRegion B OV A image_height i).2 = (image_height : ℤ) := by
          simp [splitRegion, hlast]
        rwa [he] at hy2
      · have he : (splitRegion B OV A image_height i).2 =
            min (image_height : ℤ) (((i : ℤ) + 1) * B + OV) := by
          simp [splitRegion, hlast]
        rw [he] at hy2
        exact lt_of_lt_of_le hy2 (min_le_left _ _)
  · rintro ⟨hy0, hyH⟩
    have hyy : ((y.toNat : ℕ) : ℤ) = y := Int.toNat_of_nonneg hy0
    set yn := y.toNat with hyn
    have hynH : yn < image_height := by omega
    set q := yn / B with hq
    have hqB : q * B ≤ yn := Nat.div_mul_le_self yn B
    have hyq : yn < (q + 1) * B := by
      have hmod : B * q + yn % B = yn := by
        rw [hq]
        exact Nat.div_add_mod yn B
      have hmlt : yn % B < B := Nat.mod_lt yn (by omega)
      have hexp : (q + 1) * B = B * q + B := by ring
      omega
    rcases lt_or_le q (A - 1) with hcase | hcase
    · refine ⟨splitRegion B OV A image_height q, ?_, ?_, ?_⟩
      · rw [calculateSplitRegions, List.mem_map]
        exact ⟨q, List.mem_range.mpr (by omega), rfl⟩
      · have hs : (splitRegion B OV A image_height q).1 =
            max 0 ((q : ℤ) * B - OV) := by simp [splitRegion]
        rw [hs]
        refine max_le hy0 ?_
        have h1 : ((q * B : ℕ) : ℤ) ≤ ((yn : ℕ) : ℤ) := Nat.cast_le.mpr hqB
        push_cast at h1
        linarith
      · have hqne : q ≠ A - 1 := by omega
        have he : (splitRegion B OV A image_height q).2 =
            min (image_height : ℤ) (((q : ℤ) + 1) * B + OV) := by
          simp [splitRegion, hqne]
        rw [he]
        refine lt_min (by omega) ?_
        have h2 : ((yn : ℕ) : ℤ) < (((q + 1) * B : ℕ) : ℤ) := Nat.cast_lt.mpr hyq
        push_cast at h2
        linarith
    · refine ⟨splitRegion B OV A image_height (A - 1), ?_, ?_, ?_⟩
      · rw [calculateSplitRegions, List.mem_map]
        exact ⟨A - 1, List.mem_range.mpr (by omega), rfl⟩
      · have hs : (splitRegion B OV A image_height (A - 1)).1 =
            max 0 (((A - 1 : ℕ) : ℤ) * B - OV) := by simp [splitRegion]
        rw [hs]
        refine max_le hy0 ?_
        have h1 : (A - 1) * B ≤ q * B := Nat.mul_le_mul_right B hcase
        have h2 : (((A - 1) * B : ℕ) : ℤ) ≤ ((yn : ℕ) : ℤ) :=
          Nat.cast_le.mpr (le_trans h1 hqB)
        push_cast at h2
        linarith
      · have he : (splitRegion B OV A image_height (A - 1)).2 = (image_height : ℤ) := by
          simp [splitRegion]
        rw [he]
        omega

theorem splitRegions_adjacent_overlap (num_splits min_height_per_split image_height : ℕ)
    (overlap_ratio : ℚ) (hns : 1 ≤ num_splits) (hmh : 1 ≤ min_height_per_split)
    (hH : 1 ≤ image_height) (hr0 : 0 ≤ overlap_ratio) (hr1 : overlap_ratio ≤ 1) :
    ∀ i : ℕ, i + 1 < actualSplits num_splits min_height_per_split image_height →
      ∀ r r' : ℤ × ℤ,
        (calculateSplitRegions num_splits min_height_per_split overlap_ratio image_height)[i]? =
          some r →
        (calculateSplitRegions num_splits min_height_per_split overlap_ratio image_height)[i+1]? =
          some r' →
        min r.2 r'.2 - max r.1 r'.1 =
          2 * overlapPixels num_splits min_height_per_split overlap_ratio image_height := by
  intro i hi r r' hr hr'
  have hA1 : 1 ≤ actualSplits num_splits min_height_per_split image_height :=
    actualSplits_pos _ _ _ hns
  have hB1 : 1 ≤ baseSplitHeight num_splits min_height_per_split image_height :=
    baseSplitHeight_pos _ _ _ hns hmh hH
  have hABn : actualSplits num_splits min_height_per_split image_height *
      baseSplitHeight num_splits min_height_per_split image_height ≤ image_height :=
    actualSplits_mul_base_le _ _ _
  have hOV0 : 0 ≤ overlapPixels num_splits min_height_per_split overlap_ratio image_height :=
    overlapPixels_nonneg _ _ _ _ hr0
  have hOVB : overlapPixels num_splits min_height_per_split overlap_ratio image_height ≤
      (baseSplitHeight num_splits min_height_per_split image_height : ℤ) :=
    overlapPixels_le_base _ _ _ _ hr0 hr1
  rw [calculateSplitRegions_getElem _ _ _ _ i (by omega)] at hr
  rw [calculateSplitRegions_getElem _ _ _ _ (i+1) (by omega)] at hr'
  obtain rfl := Option.some.inj hr
  obtain rfl := Option.some.inj hr'
  set A := actualSplits num_splits min_height_per_split image_height with hA
  set B := baseSplitHeight num_splits min_height_per_split image_height with hB
  set OV := overlapPixels num_splits min_height_per_split overlap_ratio image_height with hOV
  have hBZ : (1 : ℤ) ≤ (B : ℤ) := by exact_mod_cast hB1
  -- (i+1)*B + B ≤ H over ℤ
  have hn1 : (i + 1 + 1) * B ≤ A * B := Nat.mul_le_mul_right B (by omega)
  have hn2 : ((i + 1 + 1) * B : ℕ) ≤ image_height := le_trans hn1 hABn
  have hn2z : (((i : ℤ) + 1) + 1) * (B : ℤ) ≤ (image_height : ℤ) := by
    have := (Nat.cast_le (α := ℤ)).mpr hn2
    push_cast at this
    linarith
  have hmul : (((i : ℤ) + 1) + 1) * (B : ℤ) = ((i : ℤ) + 1) * B + B := by ring
  have hei_le : ((i : ℤ) + 1) * B + OV ≤ (image_height : ℤ) := by linarith
  -- e_i = (i+1)*B + OV
  have he_i : (splitRegion B OV A image_height i).2 = ((i : ℤ) + 1) * B + OV := by
    have hne : i ≠ A - 1 := by omega
    simp only [splitRegion, if_neg hne]
    exact min_eq_right hei_le
  -- s_{i+1} = (i+1)*B - OV
  have hone : (1 : ℤ) * B ≤ ((i : ℤ) + 1) * B :=
    mul_le_mul_of_nonneg_right (by omega) (by positivity)
  have hs_i1 : (splitRegion B OV A image_height (i+1)).1 = ((i : ℤ) + 1) * B - OV := by
    simp only [splitRegion]
    push_cast
    refine max_eq_right ?_
    linarith
  -- s_i ≤ s_{i+1}
  have hmono : ((i : ℤ)) * B ≤ ((i : ℤ) + 1) * B := by nlinarith
  have hs_i : (splitRegion B OV A image_height i).1 = max 0 ((i : ℤ) * B - OV) := rfl
  have hs_le : (splitRegion B OV A image_height i).1 ≤
      (splitRegion B OV A image_height (i+1)).1 := by
    rw [hs_i, hs_i1]
    refine max_le (by linarith) (by linarith)
  -- e_i ≤ e_{i+1}
  have he_le : (splitRegion B OV A image_height i).2 ≤
      (splitRegion B OV A image_height (i+1)).2 := by
    rw [he_i]
    rcases eq_or_ne (i+1) (A - 1) with hlast | hlast
    · simp only [splitRegion, if_pos hlast]
      exact hei_le
    · simp only [splitRegion, if_neg hlast]
      refine le_min hei_le ?_
      push_cast
      nlinarith
  rw [min_eq_left he_le, max_eq_right hs_le, he_i, hs_i1]
  ring

/-- Concrete evaluation: the overlap of the default tiling of a
height-1000 image is 20 rows. -/
theorem overlapPixels_1000_eval : overlapPixels 5 100 (1/10) 1000 = 20 := by
  rw [overlapPixels, pyInt_of_nonneg (by norm_num [baseSplitHeight, actualSplits])]
  norm_num [baseSplitHeight, actualSplits]

/-- Concrete evaluation: the bands of the default tiling of a height-1000
image. -/
theorem calculateSplitRegions_1000_eval : calculateSplitRegions 5 100 (1/10) 1000 =
    [(0, 220), (180, 420), (380, 620), (580, 820), (780, 1000)] := by
  rw [calculateSplitRegions, overlapPixels_1000_eval]
  norm_num [baseSplitHeight, actualSplits, splitRegion, List.range_succ]

/-- Counterexample for C4: for height 1000, 5 splits, overlap ratio 1/10,
the computed bands are `[(0,220),(180,420),(380,620),(580,820),(780,1000)]`
with `overlap_px = 20`; adjacent bands intersect in 40 rows
(`= 2 * overlap_px`), not the claimed `overlap_px`. -/
theorem c4_band_overlap_cex :
    calculateSplitRegions 5 100 (1/10) 1000 =
      [(0, 220), (180, 420), (380, 620), (580, 820), (780, 1000)] ∧
    overlapPixels 5 100 (1/10) 1000 = 20 ∧
    min (220 : ℤ) 420 - max 0 180 = 40 ∧
    min (220 : ℤ) 420 - max (0 : ℤ) 180 ≠ overlapPixels 5 100 (1/10) 1000 := by
  refine ⟨calculateSplitRegions_1000_eval, overlapPixels_1000_eval, by decide, ?_⟩
  rw [overlapPixels_1000_eval]
  decide

/-- Claim C4 (amended): for every image height `H ≥ 1` (and positive split
parameters, ratio in `[0,1]`) the band computation uses
`base_height = H // num_splits`, reduced-split recomputation and
`overlap_px = int(base_height * overlap_ratio)` exactly as claimed (these
are the definitions `actualSplits`, `baseSplitHeight`, `overlapPixels`,
`splitRegion` embedded from the source); the union of all band ranges
equals `[0, H)`; and adjacent bands overlap by `2 * overlap_px` rows (each
band extends `overlap_px` into both neighbours), not by `overlap_px`. -/
theorem c4_band_coverage_and_overlap :
    (∀ (num_splits min_height_per_split image_height : ℕ) (overlap_ratio : ℚ),
      1 ≤ num_splits → 1 ≤ min_height_per_split → 1 ≤ image_height →
      0 ≤ overlap_ratio → overlap_ratio ≤ 1 →
      (∀ y : ℤ,
        (∃ r ∈ calculateSplitRegions num_splits min_height_per_split overlap_ratio
            image_height, r.1 ≤ y ∧ y < r.2) ↔
          (0 ≤ y ∧ y < (image_height : ℤ))) ∧
      (∀ i : ℕ, i + 1 < actualSplits num_splits min_height_per_split image_height →
        ∀ r r' : ℤ × ℤ,
          (calculateSplitRegions num_splits min_height_per_split overlap_ratio
            image_height)[i]? = some r →
          (calculateSplitRegions num_splits min_height_per_split overlap_ratio
            image_height)[i+1]? = some r' →
          min r.2 r'.2 - max r.1 r'.1 =
            2 * overlapPixels num_splits min_height_per_split overlap_ratio image_height)) ∧
    calculateSplitRegions 5 100 (1/10) 1000 =
      [(0, 220), (180, 420), (380, 620), (580, 820), (780, 1000)] ∧
    overlapPixels 5 100 (1/10) 1000 = 20 := by
  refine ⟨?_, calculateSplitRegions_1000_eval, overlapPixels_1000_eval⟩
  intro num_splits min_height_per_split image_height overlap_ratio hns hmh hH hr0 hr1
  exact ⟨splitRegions_coverage _ _ _ _ hns hmh hH hr0 hr1,
    splitRegions_adjacent_overlap _ _ _ _ hns hmh hH hr0 hr1⟩

/-- Witness for C4 (amended) at the concrete parameters (5, 100, 1000, 1/10). -/
theorem c4_band_coverage_and_overlap_witness :
    ((1 : ℕ) ≤ 5) ∧ ((1 : ℕ) ≤ 100) ∧ ((1 : ℕ) ≤ 1000) ∧
    ((0 : ℚ) ≤ 1/10) ∧ ((1/10 : ℚ) ≤ 1) ∧
    ((∀ y : ℤ,
        (∃ r ∈ calculateSplitRegions 5 100 (1/10) 1000, r.1 ≤ y ∧ y < r.2) ↔
          (0 ≤ y ∧ y < (1000 : ℤ))) ∧
      (∀ i : ℕ, i + 1 < actualSplits 5 100 1000 →
        ∀ r r' : ℤ × ℤ,
          (calculateSplitRegions 5 100 (1/10) 1000)[i]? = some r →
          (calculateSplitRegions 5 100 (1/10) 1000)[i+1]? = some r' →
          min r.2 r'.2 - max r.1 r'.1 = 2 * overlapPixels 5 100 (1/10) 1000)) :=
  ⟨by decide, by decide, by decide, by norm_num, by norm_num,
    c4_band_coverage_and_overlap.1 5 100 1000 (1/10)
      (by decide) (by decide) (by decide) (by norm_num) (by norm_num)⟩
